import Mathlib

/-!
Shallow embedding of the edge layer of the webtorrent repository
(src/lib/webconn.js, src/lib/server.js, src/lib/tcp-pool.js) and proofs
about it.  JavaScript numbers that stay integral are modelled as `Int`
(or `Nat` where the source value is a list length or loop counter); the
value produced by `Number(string)` on a request path is modelled as
`Option ℚ` (`none` is `NaN`).  Fallible JavaScript code (a `TypeError`
thrown on a `null`/`undefined` dereference) is modelled with `Except`.
-/

namespace WebTorrent

/-- A file entry of the torrent metadata, as consumed by both
`src/lib/webconn.js` and `src/lib/server.js`: `{name, path, length, offset}`. -/
structure FileRecord where
  name : String
  path : String
  offset : Int
  length : Int
  deriving Repr, DecidableEq

/-- The slice of the torrent object used by `WebConn`
(src/lib/webconn.js): `pieceLength`, the ordered `files` list, and the
`pieces` list (only its length is read, at line 32). -/
structure Torrent where
  pieceLength : Int
  files : List FileRecord
  pieces : List String
  deriving Repr, DecidableEq

/-- One HTTP sub-request produced by `_buildRequests`
(src/lib/webconn.js lines 81-119).  The JS field `end` is written
`end_` because `end` is a Lean keyword; `fileOffsetInRange` is absent
(`none`) on the single-file branch, matching the source object literal. -/
structure WebSeedRequest where
  url : String
  pieceIndex : Int
  offset : Int
  length : Int
  fileOffsetInRange : Option Int
  start : Int
  end_ : Int
  deriving Repr, DecidableEq

/-- The filter predicate of `_buildRequests` (src/lib/webconn.js line 102):
`file.offset <= rangeEnd && (file.offset + file.length) > rangeStart`. -/
def intersectsRange (rangeStart rangeEnd : Int) (file : FileRecord) : Bool :=
  decide (file.offset ≤ rangeEnd ∧ file.offset + file.length > rangeStart)

/-- The files selected by the multi-file branch of `_buildRequests`
(src/lib/webconn.js lines 100-103). -/
def intersectingFiles (t : Torrent) (rangeStart rangeEnd : Int) : List FileRecord :=
  t.files.filter (intersectsRange rangeStart rangeEnd)

/-- `_buildRequests(pieceIndex, offset, length)` (src/lib/webconn.js
lines 81-119).  Single-file torrents get one request against the bare
seed URL; multi-file torrents get one request per intersecting file,
with the URL joined to the file path (line 106-107) and the clipped
byte range of lines 113-115. -/
def buildRequests (url : String) (t : Torrent) (pieceIndex offset length : Int) :
    List WebSeedRequest :=
  let pieceOffset := pieceIndex * t.pieceLength
  let rangeStart := pieceOffset + offset
  let rangeEnd := rangeStart + length - 1
  if t.files.length ≤ 1 then
    [{ url := url, pieceIndex := pieceIndex, offset := offset, length := length,
       fileOffsetInRange := none, start := rangeStart, end_ := rangeEnd }]
  else
    (intersectingFiles t rangeStart rangeEnd).map (fun file =>
      let fileEnd := file.offset + file.length - 1
      let delimiter := if url.back = '/' then "" else "/"
      { url := url ++ delimiter ++ file.path,
        pieceIndex := pieceIndex, offset := offset, length := length,
        fileOffsetInRange := some (max (file.offset - rangeStart) 0),
        start := max (rangeStart - file.offset) 0,
        end_ := min fileEnd (rangeEnd - file.offset) })

/-- Outcome of the planning phase of `httpRequest` (src/lib/webconn.js
lines 56-61): either the early error callback, or the list of HTTP
requests that will be issued in parallel. -/
inductive FetchPlan where
  | failure (msg : String)
  | requests (reqs : List WebSeedRequest)
  deriving Repr, DecidableEq

/-- The request-planning part of `httpRequest` (src/lib/webconn.js
lines 56-61): build the requests and fail early when there are none. -/
def httpRequest (url : String) (t : Torrent) (pieceIndex offset length : Int) : FetchPlan :=
  let reqs := buildRequests url t pieceIndex offset length
  if reqs.length < 1 then
    .failure "Could not find file corresponding to web seed range request"
  else
    .requests reqs

/-- Number of HTTP calls a plan issues: zero on the early error, one per
request otherwise (src/lib/webconn.js line 66 maps each request to one
`_makeRequest`). -/
def httpCallCount : FetchPlan → Nat
  | .failure _ => 0
  | .requests reqs => reqs.length

/-- The `Range` header value of `_makeRequest` (src/lib/webconn.js
line 133): the template literal `bytes=${request.start}-${request.end}`. -/
def requestRangeHeader (r : WebSeedRequest) : String :=
  "bytes=" ++ toString r.start ++ "-" ++ toString r.end_

/-- `Buffer.concat(buffers, length)` (src/lib/webconn.js line 75): Node
allocates exactly `totalLength` bytes, copies the buffers in order
(truncating once full), and any tail bytes beyond the copied data are
uninitialized memory, modelled here as zeros. -/
def bufferConcat (buffers : List (List Nat)) (totalLength : Nat) : List Nat :=
  buffers.flatten.take totalLength ++ List.replicate (totalLength - buffers.flatten.length) 0

/-- The result assembly of `httpRequest` (src/lib/webconn.js lines
68-76): one buffer is returned unmodified, two or more are concatenated
into a `length`-byte buffer.  `Promise.all` (line 67) resolves
positionally, so the i-th buffer is the body of the i-th request. -/
def assembleBuffers (buffers : List (List Nat)) (length : Nat) : List Nat :=
  match buffers with
  | [b] => b
  | bs => bufferConcat bs length

/-- The backing byte buffer of `new BitField(numPieces)`
(src/lib/webconn.js line 33): `ceil(numPieces / 8)` zeroed bytes. -/
def bitfieldBytes (numPieces : Nat) : List Nat :=
  List.replicate ((numPieces + 7) / 8) 0

/-- `bitfield.set(i, true)` of the `bitfield` package: writes
`buffer[i >> 3] |= 128 >> (i % 8)`.  Without a `grow` option the buffer
never grows, and an out-of-bounds indexed assignment on a typed array
is silently dropped, so the write only happens when `i >> 3` is inside
the buffer. -/
def bitfieldSet (buf : List Nat) (i : Nat) : List Nat :=
  let j := i / 8
  if j < buf.length then buf.set j (buf.getD j 0 ||| 128 >>> (i % 8)) else buf

/-- `bitfield.get(i)`: `(buffer[i >> 3] & (128 >> (i % 8))) !== 0`, with
an out-of-bounds read giving `undefined`, which tests as zero. -/
def bitfieldGet (buf : List Nat) (i : Nat) : Bool :=
  decide (buf.getD (i / 8) 0 &&& 128 >>> (i % 8) ≠ 0)

/-- The bitfield advertised by the handshake handler (src/lib/webconn.js
lines 32-36): a fresh `numPieces`-sized bitfield with
`for (let i = 0; i <= numPieces; i++) bitfield.set(i, true)` applied —
note the loop bound is inclusive. -/
def advertiseBitfield (numPieces : Nat) : List Nat :=
  (List.range (numPieces + 1)).foldl bitfieldSet (bitfieldBytes numPieces)

/-- State of a `WebConn` (src/lib/webconn.js): the seed `url`, the
derived `webPeerId`, the `_torrent` reference (nulled by `destroy`),
and the `destroyed` flag maintained by the base `Wire`. -/
structure WebConnState where
  url : String
  webPeerId : String
  torrent : Option Torrent
  destroyed : Bool
  deriving Repr, DecidableEq

/-- Messages the handshake handler can send on the wire. -/
inductive WireAction where
  | handshakeReply (infoHash peerId : String)
  | bitfieldMsg (buf : List Nat)
  deriving Repr, DecidableEq

/-- The `once('handshake', ...)` handler of `_init` (src/lib/webconn.js
lines 29-38): return immediately when destroyed; otherwise reply with a
handshake carrying the received infoHash and the bridge's own peer id,
then send the fully-set bitfield.  Reading `this._torrent.pieces` while
`_torrent` is `null` would throw, modelled with `Except.error`. -/
def onHandshakeActions (st : WebConnState) (infoHash : String) :
    Except String (List WireAction) :=
  if st.destroyed then .ok []
  else
    match st.torrent with
    | none => .error "TypeError: Cannot read property of null"
    | some t =>
      .ok [.handshakeReply infoHash st.webPeerId,
           .bitfieldMsg (advertiseBitfield t.pieces.length)]

/-- `WebConn.destroy` (src/lib/webconn.js lines 195-198): the base
`Wire.destroy` (external collaborator, spec §4.2 "mark the underlying
connection destroyed") sets the `destroyed` flag, then the subclass
drops the torrent reference. -/
def webConnDestroy (st : WebConnState) : WebConnState :=
  { st with destroyed := true, torrent := none }

/-- An inclusive HTTP byte range as produced by the `range-parser`
collaborator; the JS fields are `start`/`end`. -/
structure HttpRange where
  start : Int
  end_ : Int
  deriving Repr, DecidableEq

/-- Result of `rangeParser(file.length, req.headers.range || '')`
(src/lib/server.js line 88): an array of ranges on success, or a
negative error code (`-1` unsatisfiable, `-2` malformed — the absent
header becomes `''`, which is malformed). -/
inductive RangeParseResult where
  | errCode (code : Int)
  | ranges (rs : List HttpRange)
  deriving Repr, DecidableEq

/-- Body of a `ContentServer` response. -/
inductive ResponseBody where
  | text (s : String)
  | emptyBody
  | fileStream (file : FileRecord) (range : Option HttpRange)
  deriving Repr, DecidableEq

/-- An HTTP response assembled by `onReady` (src/lib/server.js):
final status code, the headers set on the path taken, and the body. -/
structure ServerResponse where
  status : Nat
  headers : List (String × String)
  body : ResponseBody
  deriving Repr, DecidableEq

/-- A parsed request path as dispatched by `onReady`
(src/lib/server.js lines 58-70): the root listing, or `/<i>` whose
remainder was fed through `Number(...)`, modelled as `Option ℚ`
(`none` is `NaN`). -/
inductive PathParse where
  | rootPath
  | filePath (num : Option ℚ)
  deriving DecidableEq

/-- The DLNA flags constant (src/lib/server.js line 9). -/
def dlnaFlag : String := "01700000000000000000000000000000"

/-- The DLNA capability header value (src/lib/server.js line 10). -/
def dlnaHeader : String := "DLNA.ORG_OP=01;DLNA.ORG_CI=0;DLNA.ORG_FLAGS=" ++ dlnaFlag

/-- The 404 guard of `onReady` (src/lib/server.js line 71):
`Number.isNaN(index) || index >= this._torrent.files.length`. -/
def badIndexGuard (num : Option ℚ) (fileCount : Nat) : Bool :=
  match num with
  | none => true
  | some q => decide ((fileCount : ℚ) ≤ q)

/-- JS array indexing `this._torrent.files[index]` (src/lib/server.js
line 76) with a number index: defined exactly when the index is a
non-negative integer inside the array, `undefined` (`none`) otherwise
(negative, fractional, or too large). -/
def jsFileLookup (files : List FileRecord) (num : Option ℚ) : Option FileRecord :=
  match num with
  | none => none
  | some q => if q.den = 1 ∧ 0 ≤ q.num then files[q.num.toNat]? else none

/-- One `<li>` entry of the root listing (src/lib/server.js lines 62-63). -/
def fileListItem (i : Nat) (file : FileRecord) : String :=
  "<li><a download=\"" ++ file.name ++ "\" href=\"/" ++ toString i ++ "\">" ++
    file.path ++ "</a> (" ++ toString file.length ++ " bytes)</li>"

/-- The root-path HTML listing (src/lib/server.js lines 61-66). -/
def listingHtml (torrentName : String) (files : List FileRecord) : String :=
  "<h1>" ++ torrentName ++ "</h1><ol>" ++
    String.intercalate "<br>" (files.enum.map (fun p => fileListItem p.1 p.2)) ++ "</ol>"

/-- `onReady` (src/lib/server.js lines 58-111).  `mimeLookup` models the
`mime` collaborator and `parseRange` models `rangeParser` already
applied to `req.headers.range || ''` for a given file length.  A
`TypeError` (dereferencing `undefined`) is `Except.error`: it happens
when the guard lets a negative or fractional index through (line 76
yields `undefined`, line 79 then reads `.name` of it), or when the
parser returned an empty array (line 92 yields `undefined`, line 98
then reads `.start` of it). -/
def onReady (files : List FileRecord) (torrentName : String)
    (mimeLookup : String → String) (parseRange : Int → RangeParseResult)
    (method : String) (path : PathParse) : Except String ServerResponse :=
  match path with
  | .rootPath =>
    .ok { status := 200, headers := [("Content-Type", "text/html")],
          body := .text (listingHtml torrentName files) }
  | .filePath num =>
    if badIndexGuard num files.length then
      .ok { status := 404, headers := [], body := .text "404 Not Found" }
    else
      match jsFileLookup files num with
      | none => .error "TypeError: Cannot read property of undefined"
      | some file =>
        let baseHeaders := [("Accept-Ranges", "bytes"),
                            ("Content-Type", mimeLookup file.name),
                            ("transferMode.dlna.org", "Streaming"),
                            ("contentFeatures.dlna.org", dlnaHeader)]
        match parseRange file.length with
        | .ranges [] => .error "TypeError: Cannot read property of undefined"
        | .ranges (r :: _) =>
          let headers := baseHeaders ++
            [("Content-Range",
              "bytes " ++ toString r.start ++ "-" ++ toString r.end_ ++ "/" ++
                toString file.length),
             ("Content-Length", toString (r.end_ - r.start + 1))]
          if method = "HEAD" then
            .ok { status := 206, headers := headers, body := .emptyBody }
          else
            .ok { status := 206, headers := headers, body := .fileStream file (some r) }
        | .errCode _ =>
          let headers := baseHeaders ++ [("Content-Length", toString file.length)]
          if method = "HEAD" then
            .ok { status := 200, headers := headers, body := .emptyBody }
          else
            .ok { status := 200, headers := headers, body := .fileStream file none }

/-- State of a `TCPPool` (src/lib/tcp-pool.js): `destroy` nulls all
three fields, so each is an `Option`.  The `Bool` inside `server`
stands for the listening socket. -/
structure TCPPoolState where
  server : Option Bool
  pendingConns : Option (List Nat)
  clientRef : Option Unit
  deriving Repr, DecidableEq

/-- Observable side effects of one `TCPPool.destroy` call. -/
structure PoolDestroyEffects where
  connsDestroyed : List Nat
  serverCloseCalled : Bool
  callbackScheduled : Bool
  deriving Repr, DecidableEq

/-- `TCPPool.destroy` (src/lib/tcp-pool.js lines 42-65): detach the
listeners from `this.server`, destroy every pending connection, close
the server (the `try`/`catch` still schedules the callback if `close`
throws), then null out all fields.  When a field is already `null` —
exactly the state a first `destroy` leaves behind — the very first
dereference (`this.server.removeListener`, line 45) throws a
`TypeError`, modelled as `Except.error`. -/
def tcpPoolDestroy (st : TCPPoolState) : Except String (TCPPoolState × PoolDestroyEffects) :=
  match st.server with
  | none => .error "TypeError: Cannot read property of null"
  | some _listening =>
    match st.pendingConns with
    | none => .error "TypeError: Cannot read property of null"
    | some conns =>
      .ok ({ server := none, pendingConns := none, clientRef := none },
           { connsDestroyed := conns, serverCloseCalled := true,
             callbackScheduled := true })

/-- State of a `ContentServer` (src/lib/server.js): tracked sockets,
pending-ready entries, the `_closed` flag and whether `_torrent` is
still referenced. -/
structure ContentServerState where
  sockets : List Nat
  pendingReady : List Nat
  closed : Bool
  torrentRef : Bool
  deriving Repr, DecidableEq

/-- Observable side effects of one `Server.destroy` call. -/
structure ServerDestroyEffects where
  socketsDestroyed : List Nat
  superCloseCalled : Bool
  callbackScheduled : Bool
  deriving Repr, DecidableEq

/-- `Server.destroy` and `Server.close` (src/lib/server.js lines
121-140): destroy every tracked socket, then — guarded by `_closed` —
either schedule the callback on the next tick (already closed) or run
`close`, which sets `_closed`, drains the pending-ready list, drops the
torrent and closes the listening socket with the callback. -/
def serverDestroy (st : ContentServerState) : ContentServerState × ServerDestroyEffects :=
  if st.closed then
    (st, { socketsDestroyed := st.sockets, superCloseCalled := false,
           callbackScheduled := true })
  else
    ({ sockets := st.sockets, pendingReady := [], closed := true, torrentRef := false },
     { socketsDestroyed := st.sockets, superCloseCalled := true,
       callbackScheduled := true })

/-- A swarm as seen by the pool's routing (src/lib/tcp-pool.js
`_onHandshake`): its infoHash and the ids of its incoming peers. -/
structure SwarmTorrent where
  infoHash : String
  peers : List String
  deriving Repr, DecidableEq

/-- Actions `_onHandshake` can take on a routed or rejected peer. -/
inductive PoolAction where
  | addedIncomingPeer (infoHash peerId : String)
  | handshakeCompleted (infoHash remotePeerId : String)
  | peerDestroyed (errMsg : String)
  deriving Repr, DecidableEq

/-- The registry lookup `this._client.get(infoHash)` (src/lib/tcp-pool.js
line 102). -/
def clientGet (torrents : List SwarmTorrent) (infoHash : String) : Option SwarmTorrent :=
  torrents.find? (fun t => decide (t.infoHash = infoHash))

/-- `_onHandshake(peer, infoHash, peerId)` (src/lib/tcp-pool.js lines
101-113): when the registry has the swarm, add the peer to it and
complete the handshake; otherwise destroy the peer with the
`Unexpected info hash ...` error and touch nothing else. -/
def onHandshakeRoute (torrents : List SwarmTorrent) (peerId infoHash remotePeerId : String) :
    List SwarmTorrent × List PoolAction :=
  match clientGet torrents infoHash with
  | some _torrent =>
    (torrents.map (fun t =>
       if t.infoHash = infoHash then { t with peers := t.peers ++ [peerId] } else t),
     [.addedIncomingPeer infoHash peerId, .handshakeCompleted infoHash remotePeerId])
  | none =>
    (torrents,
     [.peerDestroyed ("Unexpected info hash " ++ infoHash ++ " from incoming peer " ++ peerId)])

/-! Concrete fixtures used by closed theorems and witnesses. -/

/-- A three-file torrent: files at offsets 0, 100, 150 with lengths
100, 50, 100; `pieceLength = 100`. -/
def tripleFileTorrent : Torrent :=
  { pieceLength := 100,
    files := [⟨"a.bin", "d/a.bin", 0, 100⟩, ⟨"b.bin", "d/b.bin", 100, 50⟩,
              ⟨"c.bin", "d/c.bin", 150, 100⟩],
    pieces := ["p0", "p1", "p2"] }

/-- A single-file torrent of 100 bytes with `pieceLength = 100`. -/
def singleFileTorrent : Torrent :=
  { pieceLength := 100, files := [⟨"a.bin", "a.bin", 0, 100⟩], pieces := ["p0"] }

/-- A two-file torrent: two 4-byte files, `pieceLength = 8`. -/
def twoFileTorrent : Torrent :=
  { pieceLength := 8, files := [⟨"a", "a", 0, 4⟩, ⟨"b", "b", 4, 4⟩], pieces := ["p0"] }

/-- Three files for the `ContentServer` fixtures. -/
def threeFiles : List FileRecord :=
  [⟨"a.txt", "d/a.txt", 0, 100⟩, ⟨"b.txt", "d/b.txt", 100, 50⟩,
   ⟨"c.txt", "d/c.txt", 150, 100⟩]

end WebTorrent

namespace WebTorrent

/-! Helper lemmas about the bitfield model. -/

theorem bitfieldSet_length (buf : List Nat) (i : Nat) :
    (bitfieldSet buf i).length = buf.length := by
  simp only [bitfieldSet]
  split <;> simp

theorem shiftRight_128 (r : Nat) (hr : r < 8) : 128 >>> r = 2 ^ (7 - r) := by
  interval_cases r <;> rfl

theorem and_two_pow_ne (x k : Nat) : x &&& 2 ^ k ≠ 0 ↔ x.testBit k := by
  rw [Nat.and_two_pow]
  cases h : x.testBit k <;> simp [h]

theorem bitfieldGet_eq_testBit (buf : List Nat) (i : Nat) :
    bitfieldGet buf i = (buf.getD (i / 8) 0).testBit (7 - i % 8) := by
  unfold bitfieldGet
  have h8 : i % 8 < 8 := Nat.mod_lt _ (by norm_num)
  rw [shiftRight_128 _ h8]
  cases h : (buf.getD (i / 8) 0).testBit (7 - i % 8)
  · simp only [decide_eq_false_iff_not, ne_eq, not_not]
    rcases (Nat.and_two_pow (buf.getD (i / 8) 0) (7 - i % 8)) with _
    rw [Nat.and_two_pow, h]
    simp
  · simp only [decide_eq_true_eq]
    rw [ne_eq, Nat.and_two_pow, h]
    simp

theorem getD_set_self (l : List Nat) (j v : Nat) (hj : j < l.length) :
    (l.set j v).getD j 0 = v := by
  rw [List.getD_eq_getElem?_getD, List.getElem?_set_self hj]
  rfl

theorem getD_set_ne (l : List Nat) (j j' v : Nat) (h : j ≠ j') :
    (l.set j v).getD j' 0 = l.getD j' 0 := by
  rw [List.getD_eq_getElem?_getD, List.getElem?_set_ne h, ← List.getD_eq_getElem?_getD]

theorem bitfieldGet_set (buf : List Nat) (a i : Nat) :
    bitfieldGet (bitfieldSet buf a) i = true ↔
      (bitfieldGet buf i = true ∨ (i = a ∧ a / 8 < buf.length)) := by
  have hi8 : i % 8 < 8 := Nat.mod_lt _ (by norm_num)
  have ha8 : a % 8 < 8 := Nat.mod_lt _ (by norm_num)
  rw [bitfieldGet_eq_testBit, bitfieldGet_eq_testBit]
  simp only [bitfieldSet]
  by_cases hj : a / 8 < buf.length
  · rw [if_pos hj]
    by_cases heq : i / 8 = a / 8
    · rw [heq, getD_set_self _ _ _ hj]
      rw [Nat.testBit_lor]
      rw [shiftRight_128 _ ha8, Nat.testBit_two_pow]
      have hieq : (i = a) ↔ i % 8 = a % 8 := by omega
      constructor
      · intro hb
        rcases Bool.or_eq_true_iff.mp hb with hb | hb
        · exact Or.inl hb
        · have hd : 7 - a % 8 = 7 - i % 8 := of_decide_eq_true hb
          exact Or.inr ⟨hieq.mpr (by omega), hj⟩
      · intro hb
        rcases hb with hb | hb
        · exact Bool.or_eq_true_iff.mpr (Or.inl hb)
        · refine Bool.or_eq_true_iff.mpr (Or.inr (decide_eq_true ?_))
          have hm := hieq.mp hb.1
          omega
    · rw [getD_set_ne _ _ _ _ (fun hc => heq hc.symm)]
      constructor
      · exact Or.inl
      · intro hb
        rcases hb with hb | hb
        · exact hb
        · exact absurd (by rw [hb.1]) heq
  · rw [if_neg hj]
    constructor
    · exact Or.inl
    · intro hb
      rcases hb with hb | hb
      · exact hb
      · exact absurd hb.2 hj

theorem bitfieldGet_foldl (l : List Nat) (buf : List Nat) (i : Nat) :
    bitfieldGet (l.foldl bitfieldSet buf) i = true ↔
      (bitfieldGet buf i = true ∨ (i ∈ l ∧ i / 8 < buf.length)) := by
  induction l generalizing buf with
  | nil => simp
  | cons a l ih =>
    rw [List.foldl_cons, ih, bitfieldGet_set, bitfieldSet_length]
    constructor
    · rintro ((h | h) | h)
      · exact Or.inl h
      · exact Or.inr ⟨by simp [h.1], by omega⟩
      · exact Or.inr ⟨List.mem_cons_of_mem _ h.1, h.2⟩
    · rintro (h | ⟨hm, hlt⟩)
      · exact Or.inl (Or.inl h)
      · rcases List.mem_cons.mp hm with h | h
        · exact Or.inl (Or.inr ⟨h, by omega⟩)
        · exact Or.inr ⟨h, hlt⟩

theorem bitfieldGet_bytes (n i : Nat) : bitfieldGet (bitfieldBytes n) i = false := by
  unfold bitfieldGet bitfieldBytes
  have : (List.replicate ((n + 7) / 8) 0).getD (i / 8) 0 = 0 := by
    rw [List.getD_eq_getElem?_getD, List.getElem?_replicate]
    split <;> rfl
  rw [this]
  simp

theorem advertiseBitfield_get (n i : Nat) :
    bitfieldGet (advertiseBitfield n) i = true ↔
      (i ≤ n ∧ i < 8 * ((n + 7) / 8)) := by
  unfold advertiseBitfield
  rw [bitfieldGet_foldl, bitfieldGet_bytes]
  simp only [Bool.false_eq_true, false_or, List.mem_range, bitfieldBytes,
    List.length_replicate]
  omega

end WebTorrent

namespace WebTorrent

/-! Claim theorems. -/

/-- C1: evaluating `_buildRequests` at a concrete multi-file fetch whose
range spans past a file's end.  `tripleFileTorrent` has `pieceLength =
100` and files at extents `[0,100)`, `[100,150)`, `[150,250)`; the fetch
`(pieceIndex 1, offset 0, length 100)` covers absolute bytes
`[100, 199]`.  The sub-request built for the 50-byte middle file carries
`end = 99` — the code takes `min(fileEnd, rangeEnd - file.offset)` with
`fileEnd = file.offset + file.length - 1` in *absolute* coordinates
(src/lib/webconn.js lines 105, 115) — whereas the claimed clip into the
file's own coordinate space, `min(file.length - 1, rangeEnd -
file.offset)`, is `49`.  The code thus requests bytes `0-99` of a
50-byte file. -/
theorem c1_end_clamp_uses_absolute_offset :
    (buildRequests "http://seed/" tripleFileTorrent 1 0 100).map
        (fun r => (r.start, r.end_)) = [(0, 99), (0, 49)] ∧
    min ((50 : Int) - 1) (199 - 100) = 49 ∧ ((99 : Int) ≠ 49) := by
  refine ⟨rfl, rfl, by decide⟩

/-- C2 counterexample: with `pieceCount = 3` the handler of a live
bridge advertises `advertiseBitfield 3`, in which bit `3` is set even
though `3` is not in `[0, 3)` — the loop of src/lib/webconn.js line 34
runs up to `numPieces` inclusively — so the bits set are not exactly
the piece indices. -/
theorem c2_counterexample :
    onHandshakeActions
        { url := "http://seed/", webPeerId := "pid", torrent := some tripleFileTorrent,
          destroyed := false } "ih" =
      .ok [.handshakeReply "ih" "pid", .bitfieldMsg (advertiseBitfield 3)] ∧
    bitfieldGet (advertiseBitfield 3) 3 = true ∧ ¬ (3 < 3) := by
  refine ⟨rfl, by decide, by decide⟩

/-- C2 (amended): on receiving a handshake, a non-destroyed bridge with
torrent `t` replies with its own handshake and advertises the bitfield
`advertiseBitfield t.pieces.length`, in which bit `i` is set for exactly
the indices with `i ≤ pieceCount` that fit in the
`8 * ceil(pieceCount / 8)`-bit buffer: every piece index in
`[0, pieceCount)` plus the spare bit at index `pieceCount` whenever
`pieceCount` is not a multiple of 8 (when it is, the extra write falls
outside the buffer and is dropped). -/
theorem c2_amended_bitfield_bits (st : WebConnState) (t : Torrent) (infoHash : String)
    (hd : st.destroyed = false) (ht : st.torrent = some t) :
    onHandshakeActions st infoHash =
      .ok [.handshakeReply infoHash st.webPeerId,
           .bitfieldMsg (advertiseBitfield t.pieces.length)] ∧
    ∀ i, bitfieldGet (advertiseBitfield t.pieces.length) i = true ↔
      (i ≤ t.pieces.length ∧ i < 8 * ((t.pieces.length + 7) / 8)) := by
  constructor
  · simp [onHandshakeActions, hd, ht]
  · exact fun i => advertiseBitfield_get t.pieces.length i

/-- C2 witness: the amended theorem applied to a live bridge over the
three-piece torrent. -/
theorem c2_amended_bitfield_bits_witness :
    onHandshakeActions
        { url := "http://seed/", webPeerId := "pid", torrent := some tripleFileTorrent,
          destroyed := false } "ih" =
      .ok [.handshakeReply "ih" "pid", .bitfieldMsg (advertiseBitfield 3)] ∧
    bitfieldGet (advertiseBitfield 3) 0 = true := by
  have h := c2_amended_bitfield_bits
    { url := "http://seed/", webPeerId := "pid", torrent := some tripleFileTorrent,
      destroyed := false } tripleFileTorrent "ih" rfl rfl
  exact ⟨h.1, (h.2 0).mpr (by decide)⟩

/-- C3 counterexample: `singleFileTorrent` holds one 100-byte file, and
the fetch `(pieceIndex 5, offset 0, length 10)` covers absolute bytes
`[500, 509]`, which intersect no file — yet `httpRequest` does not fail
and issues one HTTP call, because the single-file branch of
`_buildRequests` (src/lib/webconn.js lines 90-98) never checks
intersection. -/
theorem c3_counterexample :
    httpRequest "http://seed/a.bin" singleFileTorrent 5 0 10 =
      .requests [{ url := "http://seed/a.bin", pieceIndex := 5, offset := 0, length := 10,
                   fileOffsetInRange := none, start := 500, end_ := 509 }] ∧
    httpCallCount (httpRequest "http://seed/a.bin" singleFileTorrent 5 0 10) = 1 ∧
    intersectingFiles singleFileTorrent 500 509 = [] := by
  refine ⟨rfl, rfl, rfl⟩

/-- C3 (amended): for torrents with at least two files, a fetch whose
absolute byte range intersects no file makes `httpRequest` fail with the
"could not find file" error and issue zero HTTP calls; for torrents with
at most one file the single-file branch issues one request
unconditionally, so the property cannot hold there. -/
theorem c3_amended_multi_file (url : String) (t : Torrent) (pieceIndex offset length : Int)
    (h2 : 2 ≤ t.files.length)
    (hno : intersectingFiles t (pieceIndex * t.pieceLength + offset)
      (pieceIndex * t.pieceLength + offset + length - 1) = []) :
    httpRequest url t pieceIndex offset length =
      .failure "Could not find file corresponding to web seed range request" ∧
    httpCallCount (httpRequest url t pieceIndex offset length) = 0 := by
  have hb : buildRequests url t pieceIndex offset length = [] := by
    simp only [buildRequests]
    rw [if_neg (by omega), hno]
    rfl
  constructor
  · simp only [httpRequest, hb]
    rfl
  · simp only [httpRequest, hb]
    rfl

/-- C3 witness: the amended theorem applied to the two-file torrent and
the out-of-range fetch `(pieceIndex 5, offset 0, length 10)`. -/
theorem c3_amended_multi_file_witness :
    httpRequest "http://seed/" twoFileTorrent 5 0 10 =
      .failure "Could not find file corresponding to web seed range request" ∧
    httpCallCount (httpRequest "http://seed/" twoFileTorrent 5 0 10) = 0 := by
  exact c3_amended_multi_file "http://seed/" twoFileTorrent 5 0 10 (by decide) rfl

end WebTorrent

namespace WebTorrent

/-- C4: evaluating `onReady` at a GET whose path index parses to `-1`
(the request path is slash followed by `-1`) against the three-file list.
`Number("-1") = -1` is not `NaN` and `-1 >= 3` is false, so the 404
guard of src/lib/server.js line 71 does not fire; line 76 then yields
`undefined` and the header-setting path is entered, crashing with a
`TypeError` when `file.name` is read at line 79 — not the claimed 404
with body `404 Not Found`. -/
theorem c4_negative_index_not_404 :
    onReady threeFiles "demo" (fun _ => "text/plain") (fun _ => .errCode (-2)) "GET"
        (.filePath (some (-1))) = .error "TypeError: Cannot read property of undefined" ∧
    badIndexGuard (some (-1)) threeFiles.length = false ∧
    onReady threeFiles "demo" (fun _ => "text/plain") (fun _ => .errCode (-2)) "GET"
        (.filePath (some 99)) =
      .ok { status := 404, headers := [], body := .text "404 Not Found" } := by
  refine ⟨rfl, rfl, rfl⟩

/-- C5: `TCPPool.destroy` is not idempotent.  The first call succeeds
(destroys the pending connections, closes the server, schedules the
callback) and nulls every field; the second call throws a `TypeError`
at `this.server.removeListener` (src/lib/tcp-pool.js lines 45, 62-64)
instead of completing and scheduling its callback.  The `ContentServer`
half of the claim does hold: a second `Server.destroy` after `close`
neither re-closes the socket nor misses its callback
(src/lib/server.js lines 124-127). -/
theorem c5_second_pool_destroy_throws :
    tcpPoolDestroy { server := some true, pendingConns := some [], clientRef := some () } =
      .ok ({ server := none, pendingConns := none, clientRef := none },
           { connsDestroyed := [], serverCloseCalled := true, callbackScheduled := true }) ∧
    tcpPoolDestroy { server := none, pendingConns := none, clientRef := none } =
      .error "TypeError: Cannot read property of null" ∧
    serverDestroy { sockets := [], pendingReady := [], closed := true, torrentRef := false } =
      ({ sockets := [], pendingReady := [], closed := true, torrentRef := false },
       { socketsDestroyed := [], superCloseCalled := false, callbackScheduled := true }) := by
  refine ⟨rfl, rfl, rfl⟩

/-- C6: for a single-file torrent, `_buildRequests` returns exactly one
request, aimed at the seed's base URL, whose absolute range is
`start = pieceIndex * pieceLength + offset` and `end = start + length -
1`, and `_makeRequest` turns it into the header value
`bytes=start-end` (src/lib/webconn.js lines 81-98, 133). -/
theorem c6_single_file_request (url : String) (t : Torrent) (pieceIndex offset length : Int)
    (h1 : t.files.length = 1) :
    buildRequests url t pieceIndex offset length =
      [{ url := url, pieceIndex := pieceIndex, offset := offset, length := length,
         fileOffsetInRange := none,
         start := pieceIndex * t.pieceLength + offset,
         end_ := pieceIndex * t.pieceLength + offset + length - 1 }] ∧
    requestRangeHeader
        { url := url, pieceIndex := pieceIndex, offset := offset, length := length,
          fileOffsetInRange := none,
          start := pieceIndex * t.pieceLength + offset,
          end_ := pieceIndex * t.pieceLength + offset + length - 1 } =
      "bytes=" ++ toString (pieceIndex * t.pieceLength + offset) ++ "-" ++
        toString (pieceIndex * t.pieceLength + offset + length - 1) := by
  constructor
  · simp [buildRequests, h1]
  · rfl

/-- C6 witness: the spec's worked example — a single-file torrent with
`pieceLength = 262144` and the fetch `(pieceIndex 2, offset 10,
length 100)` yields one request for bytes `[524298, 524397]`. -/
theorem c6_single_file_request_witness :
    buildRequests "http://seed/file"
        { pieceLength := 262144, files := [⟨"f", "f", 0, 10485760⟩], pieces := ["p"] }
        2 10 100 =
      [{ url := "http://seed/file", pieceIndex := 2, offset := 10, length := 100,
         fileOffsetInRange := none, start := 524298, end_ := 524397 }] ∧
    requestRangeHeader
        { url := "http://seed/file", pieceIndex := 2, offset := 10, length := 100,
          fileOffsetInRange := none, start := 524298, end_ := 524397 } =
      "bytes=524298-524397" := by
  have h := c6_single_file_request "http://seed/file"
    { pieceLength := 262144, files := [⟨"f", "f", 0, 10485760⟩], pieces := ["p"] }
    2 10 100 rfl
  exact ⟨h.1.trans (by decide), by decide⟩

/-- C7: a multi-file fetch concatenates in ascending file-offset order.
Given the spec invariant that the file list is ordered by ascending
offset, the files selected by `_buildRequests` are still in ascending
offset order (filtering preserves order, src/lib/webconn.js lines
100-103), and `Promise.all` delivers the bodies positionally, so for
any bodies matching the requests one-to-one whose total size is
`length`: with two or more sub-requests the assembled result is exactly
their concatenation and has exactly `length` bytes
(`Buffer.concat(buffers, length)`, line 75), and with exactly one
sub-request the single body is returned unmodified (line 71). -/
theorem c7_concat_ascending (url : String) (t : Torrent) (pieceIndex offset : Int)
    (length : Nat)
    (hsorted : t.files.Pairwise (fun a b => a.offset ≤ b.offset)) :
    (intersectingFiles t (pieceIndex * t.pieceLength + offset)
        (pieceIndex * t.pieceLength + offset + (length : Int) - 1)).Pairwise
      (fun a b => a.offset ≤ b.offset) ∧
    (∀ buffers : List (List Nat),
      buffers.length = (buildRequests url t pieceIndex offset (length : Int)).length →
      2 ≤ buffers.length → buffers.flatten.length = length →
      assembleBuffers buffers length = buffers.flatten ∧
      (assembleBuffers buffers length).length = length) ∧
    (∀ b : List Nat, assembleBuffers [b] length = b) := by
  refine ⟨?_, ?_, fun b => rfl⟩
  · exact List.Pairwise.sublist (List.filter_sublist _) hsorted
  · intro buffers _hn h2 hflat
    have hconcat : assembleBuffers buffers length = bufferConcat buffers length := by
      match buffers, h2 with
      | a :: b :: rest, _ => rfl
    have hres : bufferConcat buffers length = buffers.flatten := by
      unfold bufferConcat
      rw [List.take_of_length_le (le_of_eq hflat), hflat, Nat.sub_self]
      simp
    refine ⟨hconcat.trans hres, ?_⟩
    rw [hconcat.trans hres, hflat]

/-- C7 witness: `twoFileTorrent` (two 4-byte files) with the fetch
`(pieceIndex 0, offset 2, length 4)` spanning both files, and bodies
`[10, 11]` and `[12, 13]`. -/
theorem c7_concat_ascending_witness :
    assembleBuffers [[10, 11], [12, 13]] 4 = [10, 11, 12, 13] ∧
    assembleBuffers [[7, 7, 7, 7]] 4 = [7, 7, 7, 7] ∧
    (intersectingFiles twoFileTorrent (0 * 8 + 2) (0 * 8 + 2 + (4 : Int) - 1)).Pairwise
      (fun a b => a.offset ≤ b.offset) := by
  have h := c7_concat_ascending "http://seed/" twoFileTorrent 0 2 4
    (by simp [twoFileTorrent, List.pairwise_cons])
  refine ⟨?_, h.2.2 [7, 7, 7, 7], ?_⟩
  · exact (h.2.1 [[10, 11], [12, 13]] (by decide) (by decide) (by decide)).1
  · exact h.1

end WebTorrent

namespace WebTorrent

/-- C8: for any request addressing a valid file index (any method —
the code only distinguishes HEAD from the rest), the range branch of
`onReady` (src/lib/server.js lines 86-104): when the Range header
parses to at least one range, the response is 206 with
`Content-Range: bytes start-end/total` and
`Content-Length = end - start + 1` computed from the first parsed
range only; when the parser reports an error code (absent, malformed or
unsatisfiable header), the response is 200 with
`Content-Length = total`. -/
theorem c8_range_header_semantics (files : List FileRecord) (torrentName : String)
    (mimeLookup : String → String) (parseRange : Int → RangeParseResult)
    (method : String) (i : Nat) (file : FileRecord)
    (hfile : files[i]? = some file) :
    (∀ r rest, parseRange file.length = .ranges (r :: rest) →
      onReady files torrentName mimeLookup parseRange method (.filePath (some (i : ℚ))) =
        .ok { status := 206,
              headers := [("Accept-Ranges", "bytes"),
                          ("Content-Type", mimeLookup file.name),
                          ("transferMode.dlna.org", "Streaming"),
                          ("contentFeatures.dlna.org", dlnaHeader),
                          ("Content-Range",
                           "bytes " ++ toString r.start ++ "-" ++ toString r.end_ ++
                             "/" ++ toString file.length),
                          ("Content-Length", toString (r.end_ - r.start + 1))],
              body := if method = "HEAD" then .emptyBody else .fileStream file (some r) }) ∧
    (∀ code, parseRange file.length = .errCode code →
      onReady files torrentName mimeLookup parseRange method (.filePath (some (i : ℚ))) =
        .ok { status := 200,
              headers := [("Accept-Ranges", "bytes"),
                          ("Content-Type", mimeLookup file.name),
                          ("transferMode.dlna.org", "Streaming"),
                          ("contentFeatures.dlna.org", dlnaHeader),
                          ("Content-Length", toString file.length)],
              body := if method = "HEAD" then .emptyBody else .fileStream file none }) := by
  have hlt : i < files.length := (List.getElem?_eq_some_iff.mp hfile).1
  have hguard : badIndexGuard (some (i : ℚ)) files.length = false := by
    simp only [badIndexGuard, decide_eq_false_iff_not, not_le]
    exact_mod_cast hlt
  have hlook : jsFileLookup files (some (i : ℚ)) = some file := by
    simp only [jsFileLookup]
    rw [if_pos ⟨Rat.den_natCast i, by rw [Rat.num_natCast]; exact Int.natCast_nonneg i⟩,
      Rat.num_natCast, Int.toNat_natCast]
    exact hfile
  constructor
  · intro r rest hr
    simp only [onReady, hguard, Bool.false_eq_true, if_false, hlook, hr]
    split <;> rename_i hm <;> simp [hm]
  · intro code hc
    simp only [onReady, hguard, Bool.false_eq_true, if_false, hlook, hc]
    split <;> rename_i hm <;> simp [hm]

/-- C8 witness: the spec's worked example — a single 1000-byte file;
`Range: bytes=0-99` (parsed to one range) yields 206 with
`Content-Range: bytes 0-99/1000` and `Content-Length: 100`, and a
malformed/absent header (error code `-2`) yields 200 with
`Content-Length: 1000`. -/
theorem c8_range_header_semantics_witness :
    onReady [⟨"v.mp4", "v.mp4", 0, 1000⟩] "t" (fun _ => "video/mp4")
        (fun _ => .ranges [⟨0, 99⟩]) "GET" (.filePath (some (0 : ℚ))) =
      .ok { status := 206,
            headers := [("Accept-Ranges", "bytes"),
                        ("Content-Type", "video/mp4"),
                        ("transferMode.dlna.org", "Streaming"),
                        ("contentFeatures.dlna.org", dlnaHeader),
                        ("Content-Range", "bytes 0-99/1000"),
                        ("Content-Length", "100")],
            body := .fileStream ⟨"v.mp4", "v.mp4", 0, 1000⟩ (some ⟨0, 99⟩) } ∧
    onReady [⟨"v.mp4", "v.mp4", 0, 1000⟩] "t" (fun _ => "video/mp4")
        (fun _ => .errCode (-2)) "GET" (.filePath (some (0 : ℚ))) =
      .ok { status := 200,
            headers := [("Accept-Ranges", "bytes"),
                        ("Content-Type", "video/mp4"),
                        ("transferMode.dlna.org", "Streaming"),
                        ("contentFeatures.dlna.org", dlnaHeader),
                        ("Content-Length", "1000")],
            body := .fileStream ⟨"v.mp4", "v.mp4", 0, 1000⟩ none } := by
  constructor
  · exact ((c8_range_header_semantics [⟨"v.mp4", "v.mp4", 0, 1000⟩] "t" (fun _ => "video/mp4")
      (fun _ => .ranges [⟨0, 99⟩]) "GET" 0 ⟨"v.mp4", "v.mp4", 0, 1000⟩ rfl).1
      ⟨0, 99⟩ [] rfl).trans rfl
  · exact ((c8_range_header_semantics [⟨"v.mp4", "v.mp4", 0, 1000⟩] "t" (fun _ => "video/mp4")
      (fun _ => .errCode (-2)) "GET" 0 ⟨"v.mp4", "v.mp4", 0, 1000⟩ rfl).2
      (-2) rfl).trans rfl

/-- C9: when the registry lookup finds no swarm for the handshake's
infoHash, `_onHandshake` (src/lib/tcp-pool.js lines 101-113) leaves
every swarm untouched and performs exactly one action: destroying the
peer with the `Unexpected info hash ... from incoming peer ...` error —
no peer is added to any swarm's list, no retry, no registry
notification. -/
theorem c9_unknown_infohash_destroys (torrents : List SwarmTorrent)
    (peerId infoHash remotePeerId : String)
    (habsent : clientGet torrents infoHash = none)
    (hfresh : ∀ t ∈ torrents, peerId ∉ t.peers) :
    onHandshakeRoute torrents peerId infoHash remotePeerId =
      (torrents,
       [.peerDestroyed
          ("Unexpected info hash " ++ infoHash ++ " from incoming peer " ++ peerId)]) ∧
    ∀ t ∈ (onHandshakeRoute torrents peerId infoHash remotePeerId).1, peerId ∉ t.peers := by
  have h : onHandshakeRoute torrents peerId infoHash remotePeerId =
      (torrents,
       [.peerDestroyed
          ("Unexpected info hash " ++ infoHash ++ " from incoming peer " ++ peerId)]) := by
    simp only [onHandshakeRoute, habsent]
  refine ⟨h, ?_⟩
  rw [h]
  exact hfresh

/-- C9 witness: a registry holding only swarm `hashA` receives a
handshake for `hashB`. -/
theorem c9_unknown_infohash_destroys_witness :
    onHandshakeRoute [⟨"hashA", []⟩] "p1" "hashB" "rp" =
      ([⟨"hashA", []⟩],
       [.peerDestroyed "Unexpected info hash hashB from incoming peer p1"]) := by
  exact (c9_unknown_infohash_destroys [⟨"hashA", []⟩] "p1" "hashB" "rp" rfl
    (by simp)).1

/-- C10: once `WebConn.destroy` has run (the base `Wire` sets the
`destroyed` flag and the subclass drops the torrent,
src/lib/webconn.js lines 195-198), a subsequently delivered handshake
event produces no wire actions at all — the handler's first line
`if (this.destroyed) return` (line 30) fires, so no reply handshake and
no bitfield are sent. -/
theorem c10_handshake_after_destroy_ignored (st : WebConnState) (infoHash : String) :
    onHandshakeActions (webConnDestroy st) infoHash = .ok [] := rfl

end WebTorrent
